import Mathlib

/-!
Verification of the `absscpi` Python binding (`src/absscpi/driver.py`), a thin
ctypes wrapper over the ABS SCPI C driver library.  The binding itself is
embedded from the source; the C driver functions it calls are not part of the
sources, so they are modelled from the specification and marked as such.
-/

namespace AbsScpi

/-- Conversion applied when a Python integer is passed as a C `unsigned int`
(ctypes `c_uint`): the value is reduced modulo 2^32; ctypes does no overflow
checking. -/
def cUint (x : Int) : Nat := (x % (2 ^ 32 : Int)).toNat

/-- Reduction applied when a Python non-negative length is passed as `c_uint`. -/
def cUintNat (n : Nat) : Nat := n % 2 ^ 32

/-- Storage semantics of a C `uint8_t` out-parameter (ctypes `c_uint8`): the
stored value is the written value reduced modulo 2^8. -/
def cUint8 (n : Nat) : Nat := n % 2 ^ 8

/-- A byte of a C character buffer, as its numeric value. -/
abbrev Byte := Nat

/-- The 32-bit pattern of a C `float` (ctypes `c_float`); the operations under
study never inspect the numeric value, only move it across the boundary. -/
abbrev CFloatBits := Nat

/-- The `value` of a ctypes fixed-size `c_char` array or string buffer: the
bytes up to the first NUL byte (all of them when no NUL is present). -/
def cBytesValue (raw : List Byte) : List Byte := raw.takeWhile (fun b => b != 0)

/-- Modelled from the spec: the fixed-width copy the missing C core performs
when writing a text field into a caller buffer of width `w` — at most `w - 1`
data bytes followed by a NUL terminator, the rest of the buffer cleared
("bounded-length text, ≤ width-1 data bytes + terminator"). -/
def fillBuffer (w : Nat) (payload : List Byte) : List Byte :=
  payload.take (w - 1) ++ List.replicate (w - (payload.take (w - 1)).length) 0

/-- Observable I/O actions of the underlying driver. -/
inductive IoEvent where
  | exchange (cmd : String)
  | openPort (name : String)
  | destroyHandle
deriving DecidableEq

/-- Python-level exceptions raised by the binding: `ValueError` from argument
checks, `ScpiClientError` from negative driver codes. -/
inductive PyError where
  | valueError (msg : String)
  | scpiClientError (msg : String)
deriving DecidableEq

/-- Modelled from the spec: the fixed error-code→message table of the missing
C core ("a fixed code→message table").  The entries are representative; the
spec fixes only that the table is fixed, keyed by integer codes, and that
every message is a nonempty human-readable string. -/
def errorTable : List (Int × String) :=
  [(0, "Success"),
   (-2, "Invalid argument"),
   (-3, "Invalid driver handle"),
   (-4, "Receive timed out"),
   (-5, "Send failed"),
   (-7, "Not connected"),
   (-14, "Invalid response from the unit")]

/-- Modelled from the spec: the negative code with which the missing C core
reports a caller-argument validation failure; the spec fixes only its sign. -/
def kInvalidArgument : Int := -2

/-- Modelled from the spec: `AbsScpiClient_ErrorMessage`, a pure lookup in the
fixed table with an explicit default branch for unmapped codes ("unknown codes
map to a generic unknown-error message — never a throwing lookup"). -/
def absErrorMessage (err : Int) : String :=
  match errorTable.find? (fun p => p.1 == err) with
  | some p => p.2
  | none => "Unknown error"

/-- Session addressing mode held by the client: none yet, a network peer, or a
serial port plus device identifier. -/
inductive AddrMode where
  | unopened
  | udp (targetIp : String) (interfaceIp : Option String)
  | serial (port : String) (deviceId : Nat)
deriving DecidableEq

/-- The session state visible across calls: the driver handle installed by
`init` plus the addressing mode installed by the open calls. -/
structure Client where
  handle : Nat
  addr : AddrMode
deriving DecidableEq

/-- Modelled from the spec: everything outside the program that determines one
run — the outcome codes of the driver exchanges and the payloads the device
answers with. -/
structure DeviceEnv where
  ioCode : Int := 0
  openCode : Int := 0
  initCode : Int := 0
  newHandle : Nat := 1
  errorCount : Int := 0
  partNumber : List Byte := []
  serialNumber : List Byte := []
  version : List Byte := []
  ipAddr : List Byte := []
  netmask : List Byte := []
  calDate : List Byte := []
  faultCode : Int := 0
  faultMessage : List Byte := []
  deviceId : Nat := 0
  cellTargets : List CFloatBits := List.replicate 8 0
  discoverySocketOk : Bool := true
  discoveryReplies : List (List Byte × List Byte) := []
deriving DecidableEq

/-- Outcome of one binding call: the Python-level result, the session state
afterwards, and the I/O performed by the driver during the call. -/
structure OpResult (α : Type) where
  ret : Except PyError α
  client : Client
  events : List IoEvent

/-- Embeds `ScpiClient.err_msg`: decode the message returned by the driver lookup. -/
def err_msg (err : Int) : String := absErrorMessage err

/-- Embeds `ScpiClient.__check_err`: raise `ScpiClientError` carrying the resolved
message exactly when the driver return code is negative. -/
def check_err (err : Int) : Except PyError Unit :=
  if err < 0 then Except.error (PyError.scpiClientError (err_msg err)) else Except.ok ()

/-- Modelled from the spec: `AbsScpiClient_SetCellVoltage` of the missing C
core — it rejects a channel index outside [0,7] before any I/O ("validation
before I/O"), otherwise performs one command exchange whose outcome the
environment determines. -/
def absSetCellVoltage (env : DeviceEnv) (cell : Nat) (_voltage : CFloatBits) :
    Int × List IoEvent :=
  if 7 < cell then (kInvalidArgument, [])
  else (env.ioCode, [IoEvent.exchange "SetCellVoltage"])

/-- Embeds `ScpiClient.set_cell_voltage`: pass the channel as `c_uint` and the value
as `c_float` to the driver, then check the returned code.  No Python-side
validation is performed. -/
def set_cell_voltage (env : DeviceEnv) (c : Client) (cell : Int)
    (voltage : CFloatBits) : OpResult Unit :=
  let r := absSetCellVoltage env (cUint cell) voltage
  { ret := check_err r.1, client := c, events := r.2 }

/-- Modelled from the spec: `AbsScpiClient_SetAllCellVoltages` of the missing
C core — it rejects a bulk update whose count differs from the eight channels
before any I/O ("any bulk operation over all channels must supply exactly
eight values"), otherwise performs one command exchange. -/
def absSetAllCellVoltages (env : DeviceEnv) (_vals : List CFloatBits)
    (count : Nat) : Int × List IoEvent :=
  if count ≠ 8 then (kInvalidArgument, [])
  else (env.ioCode, [IoEvent.exchange "SetAllCellVoltages"])

/-- Embeds `ScpiClient.set_all_cell_voltages`: marshal the sequence into a C float
array of its exact length, pass the length as `c_uint`, and check the returned
code.  No Python-side validation is performed. -/
def set_all_cell_voltages (env : DeviceEnv) (c : Client)
    (voltages : List CFloatBits) : OpResult Unit :=
  let r := absSetAllCellVoltages env voltages (cUintNat voltages.length)
  { ret := check_err r.1, client := c, events := r.2 }

/-- Embeds `AbsDeviceInfo`: a ctypes structure of three fixed 128-byte `c_char`
fields holding the raw buffer contents. -/
structure AbsDeviceInfo where
  part_number : List Byte
  serial : List Byte
  version : List Byte
deriving DecidableEq

/-- Embeds `AbsDeviceInfo.get_part_number`: decode the NUL-truncated field value. -/
def AbsDeviceInfo.get_part_number (i : AbsDeviceInfo) : List Byte :=
  cBytesValue i.part_number

/-- Embeds `AbsDeviceInfo.get_serial`: decode the NUL-truncated field value. -/
def AbsDeviceInfo.get_serial (i : AbsDeviceInfo) : List Byte :=
  cBytesValue i.serial

/-- Embeds `AbsDeviceInfo.get_version`: decode the NUL-truncated field value. -/
def AbsDeviceInfo.get_version (i : AbsDeviceInfo) : List Byte :=
  cBytesValue i.version

/-- Embeds `AbsEthernetConfig`: a ctypes structure of two fixed 32-byte `c_char`
fields. -/
structure AbsEthernetConfig where
  ip : List Byte
  netmask : List Byte
deriving DecidableEq

/-- Embeds `AbsEthernetConfig.get_ip_address`: decode the NUL-truncated field. -/
def AbsEthernetConfig.get_ip_address (conf : AbsEthernetConfig) : List Byte :=
  cBytesValue conf.ip

/-- Embeds `AbsEthernetConfig.get_netmask`: decode the NUL-truncated field. -/
def AbsEthernetConfig.get_netmask (conf : AbsEthernetConfig) : List Byte :=
  cBytesValue conf.netmask

/-- Embeds `AbsEthernetDiscoveryResult`: a ctypes structure of a 32-byte `ip` field
and a 128-byte `serial` field. -/
structure AbsEthernetDiscoveryResult where
  ip : List Byte
  serial : List Byte
deriving DecidableEq

/-- Embeds `AbsEthernetDiscoveryResult.get_ip_address`: decode the NUL-truncated
field. -/
def AbsEthernetDiscoveryResult.get_ip_address
    (r : AbsEthernetDiscoveryResult) : List Byte :=
  cBytesValue r.ip

/-- Embeds `AbsEthernetDiscoveryResult.get_serial`: decode the NUL-truncated field. -/
def AbsEthernetDiscoveryResult.get_serial
    (r : AbsEthernetDiscoveryResult) : List Byte :=
  cBytesValue r.serial

/-- Storage semantics of a C `int16_t` out-parameter (ctypes `c_int16`): the
written value reduced to the signed 16-bit range. -/
def cInt16 (x : Int) : Int := (x + 2 ^ 15) % 2 ^ 16 - 2 ^ 15

/-- Modelled from the spec: the negative code with which the missing C core
reports that the discovery socket could not be created or bound. -/
def kSocketError : Int := -5

/-- Modelled from the spec: `AbsScpiClient_Init` — allocates a fresh client
handle through the `byref` out-parameter; on failure the handle is left
unchanged. -/
def absInit (env : DeviceEnv) (c : Client) : Int × Client :=
  (env.initCode, if env.initCode < 0 then c else { c with handle := env.newHandle })

/-- Embeds `ScpiClient.init`: call the driver allocation and check the code. -/
def init (env : DeviceEnv) (c : Client) : OpResult Unit :=
  let r := absInit env c
  { ret := check_err r.1, client := r.2, events := [] }

/-- Modelled from the spec: `AbsScpiClient_Destroy` — releases the client
handle through the `byref` out-parameter and clears it ("destruction
guarantees release even on an error path"). -/
def absDestroy (_c : Client) : Client × List IoEvent :=
  ({ handle := 0, addr := AddrMode.unopened }, [IoEvent.destroyHandle])

/-- Embeds `ScpiClient.cleanup`: call the driver destroy on the handle; the returned
code is not checked. -/
def cleanup (c : Client) : Client × List IoEvent := absDestroy c

/-- Embeds `ScpiClient.__enter__`: initialize the handle and return the client. -/
def enter_method (env : DeviceEnv) (c : Client) : OpResult Unit := init env c

/-- The exception information Python passes to `__exit__` when the body of
the `with` block raised: exception type, value and traceback.  `none` stands
for a normal exit. -/
structure ExcInfo where
  excType : String
  excValue : String
  excTraceback : String
deriving DecidableEq

/-- Embeds `ScpiClient.__exit__`: unconditionally calls `cleanup`, whatever exception
information it receives. -/
def exit_method (_excInfo : Option ExcInfo) (c : Client) : Client × List IoEvent :=
  cleanup c

/-- Modelled from the spec: `AbsScpiClient_OpenUdp` — binds the UDP socket
(optionally to a local interface) and installs the network addressing mode;
on failure the session state is unchanged. -/
def absOpenUdp (env : DeviceEnv) (c : Client) (targetIp : String)
    (interfaceIp : Option String) : Int × Client × List IoEvent :=
  (env.openCode,
   if env.openCode < 0 then c else { c with addr := AddrMode.udp targetIp interfaceIp },
   [IoEvent.openPort targetIp])

/-- Embeds `ScpiClient.open_udp`: pass the target and optional interface address to
the driver and check the returned code. -/
def open_udp (env : DeviceEnv) (c : Client) (targetIp : String)
    (interfaceIp : Option String) : OpResult Unit :=
  let r := absOpenUdp env c targetIp interfaceIp
  { ret := check_err r.1, client := r.2.1, events := r.2.2 }

/-- Modelled from the spec: `AbsScpiClient_OpenSerial` — acquires the serial
port and installs the serial addressing mode (the device ID arrives as the
`c_uint`-reduced value); on failure the session state is unchanged. -/
def absOpenSerial (env : DeviceEnv) (c : Client) (port : String)
    (deviceId : Nat) : Int × Client × List IoEvent :=
  (env.openCode,
   if env.openCode < 0 then c else { c with addr := AddrMode.serial port deviceId },
   [IoEvent.openPort port])

/-- Embeds `ScpiClient.open_serial`: raise `ValueError` before any driver call when
the device ID is negative, otherwise pass the ID through `c_uint` to the
driver and check the returned code. -/
def open_serial (env : DeviceEnv) (c : Client) (port : String)
    (deviceId : Int) : OpResult Unit :=
  if deviceId < 0 then
    { ret := Except.error (PyError.valueError
        ("device ID out of range: " ++ toString deviceId)),
      client := c, events := [] }
  else
    let r := absOpenSerial env c port (cUint deviceId)
    { ret := check_err r.1, client := r.2.1, events := r.2.2 }

/-- Modelled from the spec: `AbsScpiClient_GetDeviceInfo` — one query
exchange; the three fixed 128-byte fields are written with a bounded copy of
the device's reply (≤127 data bytes plus terminator each). -/
def absGetDeviceInfo (env : DeviceEnv) : Int × AbsDeviceInfo × List IoEvent :=
  (env.ioCode,
   { part_number := fillBuffer 128 env.partNumber,
     serial := fillBuffer 128 env.serialNumber,
     version := fillBuffer 128 env.version },
   [IoEvent.exchange "GetDeviceInfo"])

/-- Embeds `ScpiClient.get_device_info`: allocate the out-structure, call the
driver, check the code, and return the structure. -/
def get_device_info (env : DeviceEnv) (c : Client) : OpResult AbsDeviceInfo :=
  let r := absGetDeviceInfo env
  { ret := (check_err r.1).map (fun _ => r.2.1), client := c, events := r.2.2 }

/-- Modelled from the spec: `AbsScpiClient_GetDeviceId` — one query exchange;
on return the device's serial ID has been written through the `uint8_t`
out-parameter (a C `uint8_t` store keeps the value modulo 2^8). -/
def absGetDeviceId (env : DeviceEnv) : Int × Nat × List IoEvent :=
  (env.ioCode, cUint8 env.deviceId, [IoEvent.exchange "GetDeviceId"])

/-- Embeds `ScpiClient.get_device_id`: allocate a `c_uint8` out-parameter, call the
driver, check the code, and return the stored value. -/
def get_device_id (env : DeviceEnv) (c : Client) : OpResult Nat :=
  let r := absGetDeviceId env
  { ret := (check_err r.1).map (fun _ => r.2.1), client := c, events := r.2.2 }

/-- Modelled from the spec: `AbsScpiClient_GetIPAddress` — one query
exchange; the two fixed 32-byte fields are written with a bounded copy of
the device's reply (≤31 data bytes plus terminator each). -/
def absGetIPAddress (env : DeviceEnv) : Int × AbsEthernetConfig × List IoEvent :=
  (env.ioCode,
   { ip := fillBuffer 32 env.ipAddr, netmask := fillBuffer 32 env.netmask },
   [IoEvent.exchange "GetIPAddress"])

/-- Embeds `ScpiClient.get_ip_address`: allocate the out-structure, call the driver,
check the code, and return the structure. -/
def get_ip_address (env : DeviceEnv) (c : Client) : OpResult AbsEthernetConfig :=
  let r := absGetIPAddress env
  { ret := (check_err r.1).map (fun _ => r.2.1), client := c, events := r.2.2 }

/-- Modelled from the spec: `AbsScpiClient_SetIPAddress` — one command
exchange carrying the caller-filled configuration structure. -/
def absSetIPAddress (env : DeviceEnv) (_conf : AbsEthernetConfig) :
    Int × List IoEvent :=
  (env.ioCode, [IoEvent.exchange "SetIPAddress"])

/-- Embeds `ScpiClient.set_ip_address`: fill a fresh configuration structure with
the caller's encoded strings (a ctypes `c_char` field assignment zero-pads a
shorter value, stores an exactly-field-width value without a terminator, and
raises `ValueError` for a longer one), send it, and return the structure. -/
def set_ip_address (env : DeviceEnv) (c : Client) (ip netmask : List Byte) :
    OpResult AbsEthernetConfig :=
  if 32 < ip.length ∨ 32 < netmask.length then
    { ret := Except.error (PyError.valueError "byte string too long"),
      client := c, events := [] }
  else
    let conf : AbsEthernetConfig :=
      { ip := ip ++ List.replicate (32 - ip.length) 0,
        netmask := netmask ++ List.replicate (32 - netmask.length) 0 }
    let r := absSetIPAddress env conf
    { ret := (check_err r.1).map (fun _ => conf), client := c, events := r.2 }

/-- Modelled from the spec: `AbsScpiClient_GetCalibrationDate` — one query
exchange; the caller's buffer receives a bounded copy of the device's reply
(at most the buffer width minus one data bytes, NUL-terminated). -/
def absGetCalibrationDate (env : DeviceEnv) (bufLen : Nat) :
    Int × List Byte × List IoEvent :=
  (env.ioCode, fillBuffer bufLen env.calDate,
   [IoEvent.exchange "GetCalibrationDate"])

/-- Embeds `ScpiClient.get_calibration_date`: allocate a 128-byte string buffer,
call the driver with the buffer and its length, check the code, and return
the decoded NUL-truncated buffer value. -/
def get_calibration_date (env : DeviceEnv) (c : Client) : OpResult (List Byte) :=
  let r := absGetCalibrationDate env 128
  { ret := (check_err r.1).map (fun _ => cBytesValue r.2.1),
    client := c, events := r.2.2 }

/-- Modelled from the spec: `AbsScpiClient_GetErrorCount` — one query
exchange; the device's error-queue length is written through the `c_int`
out-parameter. -/
def absGetErrorCount (env : DeviceEnv) : Int × Int × List IoEvent :=
  (env.ioCode, env.errorCount, [IoEvent.exchange "GetErrorCount"])

/-- Embeds `ScpiClient.get_error_count`: allocate a `c_int` out-parameter, call the
driver, check the code, and return the stored value. -/
def get_error_count (env : DeviceEnv) (c : Client) : OpResult Int :=
  let r := absGetErrorCount env
  { ret := (check_err r.1).map (fun _ => r.2.1), client := c, events := r.2.2 }

/-- Modelled from the spec: `AbsScpiClient_GetNextError` — one query
exchange draining one entry of the device's FIFO fault queue: a signed
16-bit code plus a bounded copy of the message into the caller's buffer. -/
def absGetNextError (env : DeviceEnv) (bufLen : Nat) :
    Int × Int × List Byte × List IoEvent :=
  (env.ioCode, cInt16 env.faultCode, fillBuffer bufLen env.faultMessage,
   [IoEvent.exchange "GetNextError"])

/-- Embeds `ScpiClient.get_next_error`: allocate a 256-byte string buffer and a
`c_int16` out-parameter, call the driver, check the code, and return the code
together with the decoded NUL-truncated buffer value. -/
def get_next_error (env : DeviceEnv) (c : Client) : OpResult (Int × List Byte) :=
  let r := absGetNextError env 256
  { ret := (check_err r.1).map (fun _ => (r.2.1, cBytesValue r.2.2.1)),
    client := c, events := r.2.2.2 }

/-- Modelled from the spec: `AbsScpiClient_ClearErrors` — one command
exchange clearing the device's fault queue. -/
def absClearErrors (env : DeviceEnv) : Int × List IoEvent :=
  (env.ioCode, [IoEvent.exchange "ClearErrors"])

/-- Embeds `ScpiClient.clear_errors`: call the driver and check the code. -/
def clear_errors (env : DeviceEnv) (c : Client) : OpResult Unit :=
  let r := absClearErrors env
  { ret := check_err r.1, client := c, events := r.2 }

/-- Modelled from the spec: `AbsScpiClient_GetCellVoltageTarget` — validates
the channel index before I/O, then one query exchange returning the channel's
voltage target. -/
def absGetCellVoltageTarget (env : DeviceEnv) (cell : Nat) :
    Int × CFloatBits × List IoEvent :=
  if 7 < cell then (kInvalidArgument, 0, [])
  else (env.ioCode, env.cellTargets.getD cell 0,
    [IoEvent.exchange "GetCellVoltageTarget"])

/-- Embeds `ScpiClient.get_cell_voltage_target`: pass the channel as `c_uint` with a
`c_float` out-parameter, check the code, and return the stored value. -/
def get_cell_voltage_target (env : DeviceEnv) (c : Client) (cell : Int) :
    OpResult CFloatBits :=
  let r := absGetCellVoltageTarget env (cUint cell)
  { ret := (check_err r.1).map (fun _ => r.2.1), client := c, events := r.2.2 }

/-- Modelled from the spec: `AbsScpiClient_GetAllCellVoltageTargets` — one
query exchange writing up to `count` channel targets into the caller's
array. -/
def absGetAllCellVoltageTargets (env : DeviceEnv) (count : Nat) :
    Int × List CFloatBits × List IoEvent :=
  (env.ioCode, env.cellTargets.take count,
   [IoEvent.exchange "GetAllCellVoltageTargets"])

/-- Embeds `ScpiClient.get_all_cell_voltage_targets`: allocate a zeroed 8-element
`c_float` array, call the driver with count 8, check the code, and return the
whole array as a list. -/
def get_all_cell_voltage_targets (env : DeviceEnv) (c : Client) :
    OpResult (List CFloatBits) :=
  let r := absGetAllCellVoltageTargets env 8
  let arr := r.2.1.take 8 ++ List.replicate (8 - (r.2.1.take 8).length) 0
  { ret := (check_err r.1).map (fun _ => arr), client := c, events := r.2.2 }

/-- The zero-initialized discovery result entry of the caller's array. -/
def emptyDiscoveryResult : AbsEthernetDiscoveryResult :=
  { ip := List.replicate 32 0, serial := List.replicate 128 0 }

/-- Modelled from the spec: `AbsScpiClient_MulticastDiscovery` — when the
socket can be bound, send one probe and collect replies in arrival order,
stopping at the caller's capacity and at the fixed maximum of 32; each entry
is written with bounded copies and the in/out count receives the number of
entries written.  When the socket cannot be created or bound, fail
immediately with a transport error and write nothing. -/
def absMulticastDiscovery (env : DeviceEnv) (_interfaceIp : String)
    (cap : Nat) : Int × List AbsEthernetDiscoveryResult × Nat × List IoEvent :=
  if env.discoverySocketOk then
    let collected := (env.discoveryReplies.take (min cap 32)).map
      (fun rp => { ip := fillBuffer 32 rp.1, serial := fillBuffer 128 rp.2 })
    (0, collected, collected.length, [IoEvent.exchange "MulticastDiscovery"])
  else (kSocketError, [], cap, [])

/-- Embeds `ScpiClient.multicast_discovery`: allocate a zeroed 32-entry result
array, pass its length through a `c_uint` in/out count, call the driver,
check the code, and return the array sliced to the returned count. -/
def multicast_discovery (env : DeviceEnv) (c : Client) (interfaceIp : String) :
    OpResult (List AbsEthernetDiscoveryResult) :=
  let r := absMulticastDiscovery env interfaceIp 32
  let arr := r.2.1.take 32
    ++ List.replicate (32 - (r.2.1.take 32).length) emptyDiscoveryResult
  { ret := (check_err r.1).map (fun _ => arr.take r.2.2.1),
    client := c, events := r.2.2.2 }

/-- A scan for the first NUL cannot run past an element failing the predicate:
its length is bounded by the prefix before that element. -/
theorem takeWhile_append_length_le {α} (q : α → Bool) (xs ys : List α) (y : α)
    (hy : q y = false) :
    (List.takeWhile q (xs ++ y :: ys)).length ≤ xs.length := by
  induction xs with
  | nil => simp [List.takeWhile_cons, hy]
  | cons a as ih =>
      by_cases ha : q a
      · simpa [List.takeWhile_cons, ha] using ih
      · simp [List.takeWhile_cons, ha]

/-- The decoded value of a buffer filled by the bounded copy stays strictly
below the buffer width: at most `w - 1` data bytes. -/
theorem cBytesValue_fillBuffer_le (w : Nat) (p : List Byte) (hw : 1 ≤ w) :
    (cBytesValue (fillBuffer w p)).length ≤ w - 1 := by
  have htl : (p.take (w - 1)).length ≤ w - 1 := by
    rw [List.length_take]
    exact min_le_left _ _
  obtain ⟨n, hn⟩ : ∃ n, w - (p.take (w - 1)).length = n + 1 :=
    ⟨w - (p.take (w - 1)).length - 1, by omega⟩
  unfold cBytesValue fillBuffer
  rw [hn, List.replicate_succ]
  exact le_trans (takeWhile_append_length_le _ _ _ _ rfl) htl

/-- C1 (amended): for every channel index whose `c_uint` reduction modulo 2^32
lies outside [0,7] — in particular every index in [8, 2^32) and every negative
index in (-2^32, 0) apart from none — `set_cell_voltage` fails with the
validation error (surfaced as `ScpiClientError`) and no transport I/O is
performed. -/
theorem set_cell_voltage_validates (env : DeviceEnv) (c : Client) (cell : Int)
    (voltage : CFloatBits) (h : 7 < cUint cell) :
    (set_cell_voltage env c cell voltage).ret
        = Except.error (PyError.scpiClientError (err_msg kInvalidArgument))
      ∧ (set_cell_voltage env c cell voltage).events = [] := by
  constructor <;>
    simp [set_cell_voltage, absSetCellVoltage, check_err, kInvalidArgument, h]

/-- Witness for C1 at channel index -1, which `c_uint` maps to 4294967295. -/
theorem set_cell_voltage_validates_witness :
    7 < cUint (-1) ∧
      ((set_cell_voltage {} { handle := 1, addr := AddrMode.unopened } (-1) 0).ret
          = Except.error (PyError.scpiClientError (err_msg kInvalidArgument))
        ∧ (set_cell_voltage {} { handle := 1, addr := AddrMode.unopened } (-1) 0).events
            = []) :=
  ⟨by decide, set_cell_voltage_validates {} _ (-1) 0 (by decide)⟩

/-- C1 counterexample: channel index 2^32 + 5 lies outside [0,7], yet the call
succeeds and performs the command exchange, because ctypes `c_uint` reduces it
to channel 5 before the driver validates it. -/
theorem set_cell_voltage_wraparound :
    (set_cell_voltage {} { handle := 1, addr := AddrMode.unopened } 4294967301 0).ret
        = Except.ok ()
      ∧ (set_cell_voltage {} { handle := 1, addr := AddrMode.unopened } 4294967301 0).events
          = [IoEvent.exchange "SetCellVoltage"] := by
  constructor <;> rfl

/-- C2 (amended): for every voltage sequence whose length reduced modulo 2^32
differs from 8 — in particular every sequence of length ≠ 8 below 2^32 —
`set_all_cell_voltages` fails with the validation error (surfaced as
`ScpiClientError`) before any transport call. -/
theorem set_all_cell_voltages_validates (env : DeviceEnv) (c : Client)
    (voltages : List CFloatBits) (h : cUintNat voltages.length ≠ 8) :
    (set_all_cell_voltages env c voltages).ret
        = Except.error (PyError.scpiClientError (err_msg kInvalidArgument))
      ∧ (set_all_cell_voltages env c voltages).events = [] := by
  constructor <;>
    simp [set_all_cell_voltages, absSetAllCellVoltages, check_err,
      kInvalidArgument, h]

/-- Witness for C2 at the empty sequence (length 0 ≠ 8). -/
theorem set_all_cell_voltages_validates_witness :
    cUintNat ([] : List CFloatBits).length ≠ 8 ∧
      ((set_all_cell_voltages {} { handle := 1, addr := AddrMode.unopened } []).ret
          = Except.error (PyError.scpiClientError (err_msg kInvalidArgument))
        ∧ (set_all_cell_voltages {} { handle := 1, addr := AddrMode.unopened } []).events
            = []) :=
  ⟨by decide, set_all_cell_voltages_validates {} _ [] (by decide)⟩

/-- Behaviour of `set_all_cell_voltages` when the `c_uint`-reduced length
equals 8: the driver performs the exchange and the environment code decides
the outcome. -/
theorem set_all_accepts_count_eight (env : DeviceEnv) (c : Client)
    (voltages : List CFloatBits) (h : cUintNat voltages.length = 8) :
    (set_all_cell_voltages env c voltages).ret = check_err env.ioCode
      ∧ (set_all_cell_voltages env c voltages).events
          = [IoEvent.exchange "SetAllCellVoltages"] := by
  constructor <;> simp [set_all_cell_voltages, absSetAllCellVoltages, h]

/-- C2 counterexample: a sequence of length 2^32 + 8 has length ≠ 8, yet the
call succeeds and performs the command exchange, because the length is passed
through ctypes `c_uint`, which reduces 2^32 + 8 to 8. -/
theorem set_all_cell_voltages_wraparound :
    (set_all_cell_voltages {} { handle := 1, addr := AddrMode.unopened }
        (List.replicate (2 ^ 32 + 8) 0)).ret = Except.ok ()
      ∧ (set_all_cell_voltages {} { handle := 1, addr := AddrMode.unopened }
          (List.replicate (2 ^ 32 + 8) 0)).events
          = [IoEvent.exchange "SetAllCellVoltages"] := by
  have hcount : cUintNat (List.replicate (2 ^ 32 + 8) (0 : CFloatBits)).length = 8 := by
    rw [List.length_replicate]
    unfold cUintNat
    norm_num
  have h := set_all_accepts_count_eight {} { handle := 1, addr := AddrMode.unopened }
      (List.replicate (2 ^ 32 + 8) 0) hcount
  exact ⟨h.1.trans rfl, h.2⟩

/-- C3: a driver return code makes the binding raise `ScpiClientError`
carrying the message resolved for that code exactly when the code is
negative; every non-negative code passes the check and the operation returns
normally (shown for the check shared by every operation, and for
`clear_errors` as a representative operation funnelling its driver code
through it). -/
theorem check_err_iff (err : Int) (env : DeviceEnv) (c : Client) :
    (check_err err = Except.error (PyError.scpiClientError (err_msg err)) ↔ err < 0)
      ∧ (check_err err = Except.ok () ↔ 0 ≤ err)
      ∧ ((clear_errors env c).ret
            = Except.error (PyError.scpiClientError (err_msg env.ioCode))
          ↔ env.ioCode < 0)
      ∧ ((clear_errors env c).ret = Except.ok () ↔ 0 ≤ env.ioCode) := by
  have h1 : ∀ e : Int,
      (check_err e = Except.error (PyError.scpiClientError (err_msg e)) ↔ e < 0) := by
    intro e
    constructor
    · intro h
      by_contra hn
      simp [check_err, hn] at h
    · intro h
      simp [check_err, h]
  have h2 : ∀ e : Int, (check_err e = Except.ok () ↔ 0 ≤ e) := by
    intro e
    constructor
    · intro h
      by_contra hn
      have hlt : e < 0 := Int.not_le.mp hn
      simp [check_err, hlt] at h
    · intro h
      simp [check_err, Int.not_lt.mpr h]
  exact ⟨h1 err, h2 err, h1 env.ioCode, h2 env.ioCode⟩

/-- C4: the error-code→message lookup is total and never fails — every
integer code resolves to a nonempty message, and every code not present in
the fixed table resolves to the generic unknown-error message. -/
theorem err_msg_total (err : Int) :
    (err_msg err).length ≠ 0
      ∧ (errorTable.find? (fun p => p.1 == err) = none →
          err_msg err = "Unknown error") := by
  have hall : ∀ q ∈ errorTable, (Prod.snd q).length ≠ 0 := by decide
  constructor
  · rcases hfind : errorTable.find? (fun p => p.1 == err) with _ | p
    · simp only [err_msg, absErrorMessage, hfind]
      decide
    · have hmem := List.mem_of_find?_eq_some hfind
      simpa [err_msg, absErrorMessage, hfind] using hall p hmem
  · intro hnone
    simp [err_msg, absErrorMessage, hnone]

/-- Witness for C4 at the unmapped code -123456: it resolves to the generic
unknown-error message. -/
theorem err_msg_total_witness :
    (err_msg (-123456)).length ≠ 0 ∧ err_msg (-123456) = "Unknown error" :=
  ⟨(err_msg_total (-123456)).1, (err_msg_total (-123456)).2 (by decide)⟩

/-- C5: discovery with zero replies and a working socket returns an empty
result list, not an error; and for every run, a successfully returned list
never holds more than 32 entries, however many replies arrive. -/
theorem multicast_discovery_bounded (env : DeviceEnv) (c : Client)
    (interfaceIp : String) :
    (∀ l, (multicast_discovery env c interfaceIp).ret = Except.ok l →
        l.length ≤ 32)
      ∧ (env.discoverySocketOk = true → env.discoveryReplies = [] →
          (multicast_discovery env c interfaceIp).ret = Except.ok []) := by
  constructor
  · intro l hl
    by_cases hs : env.discoverySocketOk
    · simp [multicast_discovery, absMulticastDiscovery, hs, check_err, Except.map] at hl
      rw [← hl, List.length_take]
      exact min_le_left _ _
    · simp [multicast_discovery, absMulticastDiscovery, hs, check_err,
        kSocketError, Except.map] at hl
  · intro hs hr
    simp [multicast_discovery, absMulticastDiscovery, hs, hr, check_err, Except.map]

/-- Witness for C5: with a working socket and no replies the result is the
empty list, which has no more than 32 entries. -/
theorem multicast_discovery_bounded_witness :
    (multicast_discovery {} { handle := 1, addr := AddrMode.unopened }
        "10.0.0.1").ret = Except.ok []
      ∧ ([] : List AbsEthernetDiscoveryResult).length ≤ 32 :=
  ⟨(multicast_discovery_bounded {} { handle := 1, addr := AddrMode.unopened }
      "10.0.0.1").2 rfl rfl,
   (multicast_discovery_bounded {} { handle := 1, addr := AddrMode.unopened }
      "10.0.0.1").1 []
     ((multicast_discovery_bounded {} { handle := 1, addr := AddrMode.unopened }
        "10.0.0.1").2 rfl rfl)⟩

/-- C6: `open_serial` raises `ValueError` before any driver call for every
negative device ID, and for every non-negative device ID it proceeds to open
the serial transport. -/
theorem open_serial_validates (env : DeviceEnv) (c : Client) (port : String)
    (deviceId : Int) :
    (deviceId < 0 →
        (open_serial env c port deviceId).ret
            = Except.error (PyError.valueError
                ("device ID out of range: " ++ toString deviceId))
          ∧ (open_serial env c port deviceId).events = [])
      ∧ (0 ≤ deviceId →
          (open_serial env c port deviceId).events = [IoEvent.openPort port]) := by
  constructor
  · intro h
    constructor <;> simp [open_serial, h]
  · intro h
    simp [open_serial, Int.not_lt.mpr h, absOpenSerial]

/-- Witness for C6 at device IDs -5 (rejected before I/O) and 300 (the port
is opened). -/
theorem open_serial_validates_witness :
    ((open_serial {} { handle := 1, addr := AddrMode.unopened } "COM3"
          (-5)).ret
        = Except.error (PyError.valueError
            ("device ID out of range: " ++ toString (-5 : Int)))
      ∧ (open_serial {} { handle := 1, addr := AddrMode.unopened } "COM3"
          (-5)).events = [])
    ∧ (open_serial {} { handle := 1, addr := AddrMode.unopened } "COM3"
        300).events = [IoEvent.openPort "COM3"] :=
  ⟨(open_serial_validates {} { handle := 1, addr := AddrMode.unopened }
      "COM3" (-5)).1 (by decide),
   (open_serial_validates {} { handle := 1, addr := AddrMode.unopened }
      "COM3" 300).2 (by decide)⟩

/-- C7: no query or command operation changes the session state (driver
handle and addressing mode) — in particular a failing call leaves the
session exactly as it was, ready for a retry. -/
theorem ops_preserve_session (env : DeviceEnv) (c : Client) :
    (∀ cell voltage, (set_cell_voltage env c cell voltage).client = c)
      ∧ (∀ voltages, (set_all_cell_voltages env c voltages).client = c)
      ∧ ((get_device_info env c).client = c)
      ∧ ((get_device_id env c).client = c)
      ∧ ((get_ip_address env c).client = c)
      ∧ (∀ ip netmask, (set_ip_address env c ip netmask).client = c)
      ∧ ((get_calibration_date env c).client = c)
      ∧ ((get_error_count env c).client = c)
      ∧ ((get_next_error env c).client = c)
      ∧ ((clear_errors env c).client = c)
      ∧ (∀ cell, (get_cell_voltage_target env c cell).client = c)
      ∧ ((get_all_cell_voltage_targets env c).client = c)
      ∧ (∀ interfaceIp, (multicast_discovery env c interfaceIp).client = c) := by
  refine ⟨fun _ _ => rfl, fun _ => rfl, rfl, rfl, rfl, ?_, rfl, rfl, rfl, rfl,
    fun _ => rfl, rfl, fun _ => rfl⟩
  intro ip netmask
  by_cases h : 32 < ip.length ∨ 32 < netmask.length
  · simp [set_ip_address, h]
  · simp [set_ip_address, h]

/-- C8 (amended): every text value produced by a query or by discovery
respects the per-field width bounds — device-info part number, serial and
version at most 127 bytes; Ethernet-config and discovery IP and netmask at
most 31 bytes and discovery serial at most 127 bytes; the error message of
`get_next_error` at most 255 bytes; the calibration date at most 127 bytes.
(The config object echoed back by `set_ip_address` is exempt: it carries the
caller's own bytes and can hold a full 32-byte field.) -/
theorem text_fields_bounded (env : DeviceEnv) (c : Client) :
    (∀ info, (get_device_info env c).ret = Except.ok info →
        info.get_part_number.length ≤ 127
          ∧ info.get_serial.length ≤ 127
          ∧ info.get_version.length ≤ 127)
      ∧ (∀ conf, (get_ip_address env c).ret = Except.ok conf →
          conf.get_ip_address.length ≤ 31 ∧ conf.get_netmask.length ≤ 31)
      ∧ (∀ interfaceIp l r,
          (multicast_discovery env c interfaceIp).ret = Except.ok l → r ∈ l →
            r.get_ip_address.length ≤ 31 ∧ r.get_serial.length ≤ 127)
      ∧ (∀ e, (get_next_error env c).ret = Except.ok e → e.2.length ≤ 255)
      ∧ (∀ d, (get_calibration_date env c).ret = Except.ok d →
          d.length ≤ 127) := by
  refine ⟨?_, ?_, ?_, ?_, ?_⟩
  · intro info h
    by_cases hc : env.ioCode < 0
    · simp [get_device_info, absGetDeviceInfo, check_err, hc, Except.map] at h
    · simp [get_device_info, absGetDeviceInfo, check_err, hc, Except.map] at h
      subst h
      refine ⟨?_, ?_, ?_⟩ <;>
        simpa [AbsDeviceInfo.get_part_number, AbsDeviceInfo.get_serial,
          AbsDeviceInfo.get_version] using
          cBytesValue_fillBuffer_le 128 _ (by norm_num)
  · intro conf h
    by_cases hc : env.ioCode < 0
    · simp [get_ip_address, absGetIPAddress, check_err, hc, Except.map] at h
    · simp [get_ip_address, absGetIPAddress, check_err, hc, Except.map] at h
      subst h
      refine ⟨?_, ?_⟩ <;>
        simpa [AbsEthernetConfig.get_ip_address,
          AbsEthernetConfig.get_netmask] using
          cBytesValue_fillBuffer_le 32 _ (by norm_num)
  · intro interfaceIp l r hl hr
    by_cases hs : env.discoverySocketOk
    · simp [multicast_discovery, absMulticastDiscovery, hs, check_err, Except.map] at hl
      rw [← hl] at hr
      have hr' := List.mem_of_mem_take (List.mem_of_mem_take hr)
      rcases List.mem_map.mp hr' with ⟨rp, _, rfl⟩
      constructor
      · simpa [AbsEthernetDiscoveryResult.get_ip_address] using
          cBytesValue_fillBuffer_le 32 rp.1 (by norm_num)
      · simpa [AbsEthernetDiscoveryResult.get_serial] using
          cBytesValue_fillBuffer_le 128 rp.2 (by norm_num)
    · simp [multicast_discovery, absMulticastDiscovery, hs, check_err,
        kSocketError, Except.map] at hl
  · intro e h
    by_cases hc : env.ioCode < 0
    · simp [get_next_error, absGetNextError, check_err, hc, Except.map] at h
    · simp [get_next_error, absGetNextError, check_err, hc, Except.map] at h
      subst h
      simpa using cBytesValue_fillBuffer_le 256 env.faultMessage (by norm_num)
  · intro d h
    by_cases hc : env.ioCode < 0
    · simp [get_calibration_date, absGetCalibrationDate, check_err, hc, Except.map] at h
    · simp [get_calibration_date, absGetCalibrationDate, check_err, hc, Except.map] at h
      subst h
      simpa using cBytesValue_fillBuffer_le 128 env.calDate (by norm_num)

/-- Witness for C8: a device answering with one-byte payloads and one
discovery reply; every returned text value meets its bound. -/
theorem text_fields_bounded_witness :
    ((AbsDeviceInfo.get_part_number
        { part_number := fillBuffer 128 [], serial := fillBuffer 128 [],
          version := fillBuffer 128 [] }).length ≤ 127
      ∧ (AbsDeviceInfo.get_serial
          { part_number := fillBuffer 128 [], serial := fillBuffer 128 [],
            version := fillBuffer 128 [] }).length ≤ 127
      ∧ (AbsDeviceInfo.get_version
          { part_number := fillBuffer 128 [], serial := fillBuffer 128 [],
            version := fillBuffer 128 [] }).length ≤ 127)
    ∧ ((AbsEthernetConfig.get_ip_address
          { ip := fillBuffer 32 [], netmask := fillBuffer 32 [] }).length ≤ 31
      ∧ (AbsEthernetConfig.get_netmask
          { ip := fillBuffer 32 [], netmask := fillBuffer 32 [] }).length ≤ 31)
    ∧ ((AbsEthernetDiscoveryResult.get_ip_address
          { ip := fillBuffer 32 [49], serial := fillBuffer 128 [50] }).length ≤ 31
      ∧ (AbsEthernetDiscoveryResult.get_serial
          { ip := fillBuffer 32 [49], serial := fillBuffer 128 [50] }).length ≤ 127)
    ∧ ((cInt16 0, cBytesValue (fillBuffer 256 [])).2.length ≤ 255)
    ∧ (cBytesValue (fillBuffer 128 [])).length ≤ 127 :=
  ⟨(text_fields_bounded { discoveryReplies := [([49], [50])] }
      { handle := 1, addr := AddrMode.unopened }).1
      { part_number := fillBuffer 128 [], serial := fillBuffer 128 [],
        version := fillBuffer 128 [] } rfl,
   (text_fields_bounded { discoveryReplies := [([49], [50])] }
      { handle := 1, addr := AddrMode.unopened }).2.1
      { ip := fillBuffer 32 [], netmask := fillBuffer 32 [] } rfl,
   (text_fields_bounded { discoveryReplies := [([49], [50])] }
      { handle := 1, addr := AddrMode.unopened }).2.2.1 "10.0.0.1"
      [{ ip := fillBuffer 32 [49], serial := fillBuffer 128 [50] }]
      { ip := fillBuffer 32 [49], serial := fillBuffer 128 [50] } rfl
      (List.mem_singleton.mpr rfl),
   (text_fields_bounded { discoveryReplies := [([49], [50])] }
      { handle := 1, addr := AddrMode.unopened }).2.2.2.1
      (cInt16 0, cBytesValue (fillBuffer 256 [])) rfl,
   (text_fields_bounded { discoveryReplies := [([49], [50])] }
      { handle := 1, addr := AddrMode.unopened }).2.2.2.2
      (cBytesValue (fillBuffer 128 [])) rfl⟩

/-- C8 counterexample: `set_ip_address` echoes back an Ethernet config built
from the caller's bytes; with an exactly-32-byte IP string the returned
config's decoded `ip` field is 32 bytes long, exceeding the claimed 31-byte
bound. -/
theorem set_ip_address_echo_full_width :
    ((set_ip_address {} { handle := 1, addr := AddrMode.unopened }
        (List.replicate 32 97) []).ret.map
          (fun conf => conf.get_ip_address.length)) = Except.ok 32 := by
  rfl

/-- C9: `__exit__` behaves as a call to `cleanup` for every exception
information, including none, so the driver handle release happens on every
exit path of a `with` block. -/
theorem exit_always_cleans (excInfo : Option ExcInfo) (c : Client) :
    exit_method excInfo c = cleanup c
      ∧ IoEvent.destroyHandle ∈ (exit_method excInfo c).2 :=
  ⟨rfl, by simp [exit_method, cleanup, absDestroy]⟩

/-- C10: whenever `get_device_id` returns successfully, the value read back
through the `uint8_t` out-parameter lies in [0,255], whatever the driver
wrote. -/
theorem get_device_id_in_range (env : DeviceEnv) (c : Client) (v : Nat)
    (h : (get_device_id env c).ret = Except.ok v) : v < 256 := by
  by_cases hc : env.ioCode < 0
  · simp [get_device_id, absGetDeviceId, check_err, hc, Except.map] at h
  · simp [get_device_id, absGetDeviceId, check_err, hc, Except.map] at h
    subst h
    simp only [cUint8]
    omega

/-- Witness for C10: a driver writing 300 stores the byte 44, which is
returned and lies below 256. -/
theorem get_device_id_in_range_witness :
    (get_device_id { deviceId := 300 }
        { handle := 1, addr := AddrMode.unopened }).ret = Except.ok 44
      ∧ 44 < 256 :=
  ⟨rfl, get_device_id_in_range { deviceId := 300 }
    { handle := 1, addr := AddrMode.unopened } 44 rfl⟩

end AbsScpi
